import Mathlib

set_option maxRecDepth 10000

/-!
Verification of the whitepaper-generator repository (two Python source files:
`complete_whitepaper_generator.py` and `generate_tech_whitepaper.py`).

The code is a configuration-driven document renderer: a static catalog of
`WhitepaperConfig` records, a Markdown renderer that substitutes record
fields into a fixed template, a dispatcher `generate_whitepaper` choosing
which artifacts to produce, and two command-line entry points.

The embedding below mirrors the source: file contents are Lean `String`s,
the clock readings (`datetime.now().strftime(...)`) are explicit string
parameters, printed messages are collected in a list, and the optional
python-docx dependency is a boolean `docx_available` parameter
(`DOCX_AVAILABLE` in the source).  Word documents are opaque artifacts: the
claims only concern their existence and filenames, never their contents.
-/

/-- Dataclass `WhitepaperConfig` of `complete_whitepaper_generator.py`
(lines 33-46), field for field.  A use case is a (title, description)
pair, matching the `{"title": ..., "description": ...}` dictionaries. -/
structure WhitepaperConfig where
  title : String
  industry : String
  subtitle : String
  executive_summary : String
  key_benefits : List String
  roi_metrics : List String
  use_cases : List (String × String)
  technology_features : List String
  competitive_advantages : List String
  implementation_timeline : String
  target_audience : List String
deriving DecidableEq

/-- The `"healthcare"` record of `get_industry_configs` (lines 67-108). -/
def healthcare_config : WhitepaperConfig where
  title := "MIZ OKI 3.0™ for Healthcare: The Autonomous Intelligence Platform-as-a-Service (PaaS)"
  industry := "Healthcare"
  subtitle := "From Reactive Care to Predictive Health: Achieving Clinical and Operational Excellence Through Business General Intelligence"
  executive_summary := "Healthcare systems worldwide face a dual crisis: exponentially growing clinical complexity coupled with insurmountable implementation barriers for transformative AI solutions. MIZ OKI 3.0™ Healthcare PaaS solves both crises simultaneously through the world\x27s first Business General Intelligence platform delivered as a managed service."
  key_benefits := [
    "Accelerates clinical decisions from hours to minutes (50-75× improvement)",
    "Reduces diagnostic errors by 43% through causal clinical reasoning",
    "Prevents $89M in annual operational waste via predictive optimization",
    "Achieves 99.7% regulatory compliance with autonomous monitoring",
    "Deploys in weeks, not years with zero infrastructure investment",
    "Delivers 1,187% 3-year ROI with 9-12 month payback"]
  roi_metrics := [
    "1,187% 3-year ROI",
    "$89M annual waste prevention",
    "43% reduction in diagnostic errors",
    "50-75× faster clinical decisions",
    "99.7% regulatory compliance"]
  use_cases := [
    ("Predictive Patient Deterioration", "Early warning systems that predict patient decline 6-12 hours before clinical manifestation"),
    ("Autonomous Treatment Optimization", "Real-time treatment protocol adjustments based on patient response patterns"),
    ("Operational Excellence", "Predictive staffing, resource allocation, and capacity management")]
  technology_features := [
    "Autonomous Decision Controllers (ADCs)",
    "E-SHKG cognitive core",
    "Healthcare-specific Industry Solution Templates",
    "HIPAA-compliant infrastructure",
    "Real-time clinical decision support"]
  competitive_advantages := [
    "Zero infrastructure investment required",
    "Weeks to deployment vs. 18-24 months",
    "Causal reasoning vs. pattern matching",
    "Industry-specific templates",
    "Autonomous decision-making capabilities"]
  implementation_timeline := "2-4 weeks"
  target_audience := ["Chief Medical Officers", "Healthcare CIOs", "Hospital Administrators", "Medical Directors"]

/-- The `"media_buying"` record of `get_industry_configs` (lines 110-151). -/
def media_buying_config : WhitepaperConfig where
  title := "MIZ OKI 3.0™ for Media Buying: The Autonomous Intelligence Platform-as-a-Service (PaaS)"
  industry := "Media Buying & Advertising"
  subtitle := "From Campaign Management to Autonomous Revenue Generation: Achieving Marketing Excellence Through Business General Intelligence"
  executive_summary := "Media buying agencies face unprecedented complexity: real-time bidding across 50+ platforms, managing $100M+ monthly ad spend, while client expectations demand instant optimization and guaranteed ROI. MIZ OKI 3.0™ Media PaaS transforms agencies from reactive campaign managers to autonomous revenue generators."
  key_benefits := [
    "Increases ROAS by 340% through predictive bid optimization",
    "Reduces media waste by 67% via autonomous budget reallocation",
    "Achieves 95% client retention through guaranteed performance",
    "Scales to unlimited campaigns with zero additional headcount",
    "Deploys in days with existing tech stack integration",
    "Delivers 890% 2-year ROI with 6-month payback"]
  roi_metrics := [
    "890% 2-year ROI",
    "340% ROAS improvement",
    "67% reduction in media waste",
    "95% client retention rate",
    "50× faster optimization cycles"]
  use_cases := [
    ("Autonomous Bid Management", "Real-time bid optimization across all platforms with predictive performance modeling"),
    ("Cross-Platform Attribution", "True multi-touch attribution with causal impact analysis"),
    ("Predictive Audience Discovery", "AI-driven audience expansion based on conversion probability")]
  technology_features := [
    "Real-time bidding optimization",
    "Cross-platform attribution modeling",
    "Predictive audience analytics",
    "Autonomous budget allocation",
    "Multi-channel campaign orchestration"]
  competitive_advantages := [
    "Platform-agnostic integration",
    "Real-time autonomous optimization",
    "Predictive performance modeling",
    "Guaranteed ROI delivery",
    "Zero manual intervention required"]
  implementation_timeline := "3-7 days"
  target_audience := ["Media Buying Directors", "Marketing Technology Leaders", "Agency Owners", "Performance Marketing Managers"]

/-- The `"general_business"` record of `get_industry_configs` (lines 153-194);
it is also the fallback record for unknown selector keys. -/
def general_business_config : WhitepaperConfig where
  title := "MIZ OKI 3.0™: Business General Intelligence Platform for Autonomous Decision-Making"
  industry := "General Business"
  subtitle := "The Autonomous Living Brain for Your Organization: Transforming Decision-Making Through Business General Intelligence"
  executive_summary := "Organizations face an intelligence crisis: exponential data growth paired with human decision bottlenecks. While business data doubles every 12 months, critical decisions still take days to weeks, and implementing AI requires massive investment with uncertain outcomes. MIZ OKI 3.0™ solves this through the world\x27s first Business General Intelligence platform."
  key_benefits := [
    "Accelerates strategic decisions from weeks to hours (100× improvement)",
    "Increases operational efficiency by 60% through autonomous optimization",
    "Reduces decision-making errors by 78% via causal reasoning",
    "Achieves 99.9% system reliability with self-healing architecture",
    "Deploys in days with existing infrastructure integration",
    "Delivers 650% 3-year ROI with 8-month payback"]
  roi_metrics := [
    "650% 3-year ROI",
    "60% operational efficiency gain",
    "78% reduction in decision errors",
    "100× faster strategic decisions",
    "99.9% system reliability"]
  use_cases := [
    ("Strategic Decision Automation", "Autonomous analysis and recommendation generation for complex business decisions"),
    ("Operational Optimization", "Real-time process optimization across all business functions"),
    ("Predictive Risk Management", "Early warning systems for business risks with automated mitigation strategies")]
  technology_features := [
    "Business General Intelligence core",
    "Autonomous Decision Controllers",
    "Self-healing infrastructure",
    "Industry-agnostic templates",
    "Real-time optimization engine"]
  competitive_advantages := [
    "General intelligence vs. narrow AI",
    "Autonomous decision-making",
    "Platform-as-a-Service delivery",
    "Industry-agnostic architecture",
    "Self-optimizing performance"]
  implementation_timeline := "1-2 weeks"
  target_audience := ["CEOs", "CTOs", "Chief Strategy Officers", "Business Intelligence Directors"]

/-- The catalog returned by `get_industry_configs` (lines 64-195), as an
association list keyed by the selector strings of the source dictionary. -/
def industry_configs : List (String × WhitepaperConfig) :=
  [("healthcare", healthcare_config),
   ("media_buying", media_buying_config),
   ("general_business", general_business_config)]

/-- The catalog lookup `configs.get(industry, configs["general_business"])`
performed by `generate_whitepaper` (line 864): an absent key falls back to
the `general_business` record, never an error. -/
def config_for (industry : String) : WhitepaperConfig :=
  ((industry_configs.lookup industry).getD general_business_config)

/-- `_format_list` (lines 798-800):
`"\n".join([f"- **{item}**" for item in items])`. -/
def format_list (items : List String) : String :=
  String.intercalate "\n" (items.map (fun item => "- **" ++ item ++ "**"))

/-- `_format_use_cases` (lines 802-807): numbered `### i. title` headings,
each followed by a blank line, the description and a trailing newline,
joined by `"\n"`. -/
def format_use_cases (use_cases : List (String × String)) : String :=
  String.intercalate "\n"
    ((List.enumFrom 1 use_cases).map
      (fun p => "### " ++ toString p.1 ++ ". " ++ p.2.1 ++ "\n\n" ++ p.2.2 ++ "\n"))

/-- Python `config.implementation_timeline.split()[0]` (lines 289 and 466):
the first whitespace-delimited token, that is, the first maximal run of
non-whitespace characters (empty if there is none; the source would raise
an IndexError in that case, which never happens on catalog data). -/
def first_token (s : String) : String :=
  ⟨(s.data.dropWhile Char.isWhitespace).takeWhile (fun c => !c.isWhitespace)⟩

/-- Python `config.roi_metrics[0].split('%')[0]` (line 297): the part of the
first ROI metric before the first `%` delimiter (the whole string when no
`%` occurs, exactly as `split` behaves).  `List.headD ""` models the `[0]`
indexing of the metrics list, faithful for a non-empty `roi_metrics`
(Python raises IndexError on an empty list). -/
def roi_year1_figure (c : WhitepaperConfig) : String :=
  ⟨(c.roi_metrics.headD "").data.takeWhile (fun ch => ch ≠ '%')⟩

/-!
`generate_markdown_whitepaper` (lines 197-342) renders one f-string
template.  The template is transcribed below in five consecutive segments
(split at the boundaries the verified properties talk about: the Key
Benefits region and the `Year 1` ROI line); their concatenation is exactly
the Python f-string, byte for byte, including the two trailing spaces that
end the `**Published:**`, `**Industry Focus:**`, `**Target Audience:**`,
`**Media Intelligence Inc.**`, `Email:` and `Phone:` lines.
-/

/-- Template text following `# {config.title}` up to and including the
blank line after `{config.executive_summary}` (source lines 202-217).
`current_date` is `datetime.datetime.now().strftime("%B %Y")` (line 200). -/
def md_front_tail (c : WhitepaperConfig) (current_date : String) : String :=
  "\n## " ++ (c.subtitle ++
  ("\n\n---\n\n**Published:** " ++ (current_date ++
  ("  \n**Industry Focus:** " ++ (c.industry ++
  ("  \n**Target Audience:** " ++ (String.intercalate ", " c.target_audience ++
  ("  \n**Implementation Timeline:** " ++ (c.implementation_timeline ++
  ("\n\n---\n\n## EXECUTIVE SUMMARY\n\n" ++ (c.executive_summary ++ "\n\n")))))))))))

/-- Template segment from `# {config.title}` up to and including the blank
line after `{config.executive_summary}` (source lines 202-217). -/
def md_front (c : WhitepaperConfig) (current_date : String) : String :=
  "# " ++ (c.title ++ md_front_tail c current_date)

/-- Template segment for the Key Benefits region: its heading, the
formatted benefit list, and the following blank line together with the ROI
Metrics heading (source lines 218-222). -/
def md_benefits (c : WhitepaperConfig) : String :=
  "### Key Benefits:\n" ++ (format_list c.key_benefits ++ "\n\n### ROI Metrics:\n")

/-- Template segment from the formatted ROI metric list after the ROI
Metrics heading up to and including the code fence opening the ROI
Calculation Example (source lines 222-296). -/
def md_middle (c : WhitepaperConfig) : String :=
  format_list c.roi_metrics ++
  ("\n\n---\n\n## THE BUSINESS CHALLENGE\n\n### The Intelligence Crisis\n\nModern organizations face an unprecedented intelligence crisis that threatens their competitive survival:\n\n**Data Explosion vs. Decision Paralysis:**\n- Business data doubles every 12 months\n- Critical decisions still require days to weeks\n- 73% of executives report decision fatigue\n- $62B annual cost of delayed decisions (Fortune 500)\n\n**AI Implementation Nightmare:**\n- 87% of AI projects never reach production\n- Average 18-24 month implementation timeline\n- $5-15M typical infrastructure investment\n- 67% failure rate for enterprise AI initiatives\n\n---\n\n## THE MIZ OKI 3.0™ SOLUTION\n\n### Business General Intelligence: Beyond Narrow AI\n\nMIZ OKI 3.0™ represents the world\x27s first Business General Intelligence platform, delivered as a managed Platform-as-a-Service (PaaS). Unlike narrow AI solutions that solve specific problems, our platform provides autonomous decision-making capabilities across all business functions.\n\n### Core Technology Components:\n\n" ++
  (format_list c.technology_features ++
  ("\n\n---\n\n## USE CASES & APPLICATIONS\n\n" ++
  (format_use_cases c.use_cases ++
  ("\n\n---\n\n## COMPETITIVE ADVANTAGES\n\n### Why MIZ OKI 3.0™ Wins:\n\n" ++
  (format_list c.competitive_advantages ++
  ("\n\n### Traditional AI vs. MIZ OKI 3.0™:\n\n| Traditional AI | MIZ OKI 3.0™ |\n|---------------|--------------|\n| 18-24 months to deploy | " ++
  (c.implementation_timeline ++
  (" to deploy |\n| $5-15M infrastructure investment | Zero infrastructure investment |\n| Narrow problem solving | General intelligence across all functions |\n| Manual optimization required | Autonomous self-optimization |\n| 67% project failure rate | 98% success rate |\n\n---\n\n## IMPLEMENTATION & ROI\n\n### Rapid Deployment Process:\n\n1. **Assessment Phase** (Day 1-2): Current state analysis and goal setting\n2. **Integration Phase** (Day 3-5): Platform integration with existing systems\n3. **Configuration Phase** (Day 6-8): Industry template customization\n4. **Go-Live Phase** (Day 9-" ++
  (first_token c.implementation_timeline ++
  ("): Full autonomous operation\n\n### Financial Impact:\n\n" ++
  (format_list c.roi_metrics ++
  "\n\n### ROI Calculation Example:\n```\n"))))))))))))

/-- The `Year 1` line of the ROI Calculation Example (source line 297):
`Year 1: {config.roi_metrics[0].split('%')[0]}% ROI`. -/
def md_year1_line (c : WhitepaperConfig) : String :=
  "Year 1: " ++ (roi_year1_figure c ++ "% ROI\n")

/-- Template segment from the `Payback Period` line to the end of the
template, including the trademark footer and the final newline before the
closing `"""` (source lines 298-340). -/
def md_back (c : WhitepaperConfig) : String :=
  "Payback Period: 6-12 months\n3-Year NPV: $50M+ (for $100M revenue organizations)\n```\n\n---\n\n## TECHNICAL SPECIFICATIONS\n\n### Architecture Overview:\n- **Deployment Model**: Cloud-native PaaS\n- **Infrastructure**: Auto-scaling, self-healing\n- **Security**: Enterprise-grade encryption, compliance-ready\n- **Integration**: API-first, platform-agnostic\n- **Performance**: 99.9% uptime SLA\n\n### Security & Compliance:\n- SOC 2 Type II certified\n- GDPR compliant\n- Industry-specific compliance (HIPAA, PCI, etc.)\n- Zero-trust security architecture\n\n---\n\n## NEXT STEPS\n\n### Getting Started:\n\n1. **Schedule Discovery Call**: 30-minute assessment of your specific needs\n2. **Proof of Concept**: 2-week pilot with your actual data\n3. **Full Deployment**: Complete implementation in " ++
  (c.implementation_timeline ++
  "\n4. **Ongoing Optimization**: Continuous improvement and expansion\n\n### Contact Information:\n\n**Media Intelligence Inc.**  \nEmail: contact@mediaintelligence.ai  \nPhone: +1 (555) MIZ-OKI3  \nWebsite: www.mizoki.ai\n\n---\n\n*© 2025 Media Intelligence Inc. All rights reserved. MIZ OKI 3.0™ is a trademark of Media Intelligence Inc.*\n")

/-- `generate_markdown_whitepaper` (lines 197-342): the five template
segments in order.  The only inputs are the config record and the clock
reading `current_date`. -/
def generate_markdown_whitepaper (c : WhitepaperConfig) (current_date : String) : String :=
  md_front c current_date ++
    (md_benefits c ++ (md_middle c ++ (md_year1_line c ++ md_back c)))

/-!  Artifact production and the two command-line entry points.  -/

/-- An output artifact of `generate_whitepaper`: a Markdown file carries its
text content; a Word document is opaque (the claims only concern its
existence and name). -/
inductive FileKind where
  | markdown (content : String)
  | wordDoc
deriving DecidableEq

/-- A produced file: its name and its kind. -/
structure GenFile where
  name : String
  kind : FileKind
deriving DecidableEq

/-- The message printed by `generate_whitepaper` when a Word document is
requested while python-docx is unavailable (lines 850, 860, 881). -/
def docx_error_msg : String := "Error: python-docx required for Word documents"

/-- Business Markdown filename (line 869):
`MIZ_OKI_3.0_Whitepaper_{industry}_{timestamp}.md` with the
second-resolution timestamp of line 840. -/
def business_md_filename (industry timestamp : String) : String :=
  "MIZ_OKI_3.0_Whitepaper_" ++ industry ++ "_" ++ timestamp ++ ".md"

/-- Business Word filename (line 877). -/
def business_docx_filename (industry timestamp : String) : String :=
  "MIZ_OKI_3.0_Whitepaper_" ++ industry ++ "_" ++ timestamp ++ ".docx"

/-- Premium Word filename (line 846). -/
def premium_docx_filename (timestamp : String) : String :=
  "MIZ_OKI_3.0_Premium_Whitepaper_" ++ timestamp ++ ".docx"

/-- Technical Word filename of the business generator (line 856) and of
`create_tech_whitepaper_docx` in `generate_tech_whitepaper.py`
(lines 1499-1500): both use the same pattern. -/
def technical_docx_filename (timestamp : String) : String :=
  "MIZ_OKI_3.0_Technical_Whitepaper_" ++ timestamp ++ ".docx"

/-- `generate_whitepaper` (lines 824-883).  Parameters: the
`DOCX_AVAILABLE` flag, the three string arguments, the second-resolution
timestamp captured at line 840 and the `%B %Y` clock reading used by the
Markdown renderer.  Returns the produced files (the Python return value is
their path list) and the messages printed along the way. -/
def generate_whitepaper (docx_available : Bool)
    (industry format_type whitepaper_type timestamp current_date : String) :
    List GenFile × List String :=
  if whitepaper_type = "premium" then
    if format_type = "word" ∨ format_type = "both" then
      if docx_available then
        ([⟨premium_docx_filename timestamp, .wordDoc⟩], [])
      else
        ([], [docx_error_msg])
    else ([], [])
  else if whitepaper_type = "technical" then
    if format_type = "word" ∨ format_type = "both" then
      if docx_available then
        ([⟨technical_docx_filename timestamp, .wordDoc⟩], [])
      else
        ([], [docx_error_msg])
    else ([], [])
  else
    -- business whitepaper branch (lines 862-881)
    let config := config_for industry
    let md_files : List GenFile :=
      if format_type = "markdown" ∨ format_type = "both" then
        [⟨business_md_filename industry timestamp,
          .markdown (generate_markdown_whitepaper config current_date)⟩]
      else []
    let word_part : List GenFile × List String :=
      if format_type = "word" ∨ format_type = "both" then
        if docx_available then
          ([⟨business_docx_filename industry timestamp, .wordDoc⟩], [])
        else
          ([], [docx_error_msg])
      else ([], [])
    (md_files ++ word_part.1, word_part.2)

/-- `main` of `complete_whitepaper_generator.py` (lines 901-931): it calls
`generate_whitepaper`, prints the produced paths and falls off the end
(returning `None`), so the process exit status is always 0 — the function
contains no `sys.exit` and no return of a status code.  Result: the
produced files, the printed messages, and the process exit status. -/
def business_main (docx_available : Bool)
    (industry format_type whitepaper_type timestamp current_date : String) :
    (List GenFile × List String) × Nat :=
  (generate_whitepaper docx_available industry format_type whitepaper_type
    timestamp current_date, 0)

/-- Exit status of `main` in `generate_tech_whitepaper.py`
(lines 1519-1583), as a function of `DOCX_AVAILABLE`, `--type` and
`--format`: `return 1` is reached only in the `whitepaper` branch when a
Word document is requested and python-docx is unavailable (line 1570); the
`all` branch merely prints a warning in that situation (line 1548) and
every other path reaches `return 0` (line 1583).  Exceptions (line 1581)
are outside this model. -/
def tech_main_exit (docx_available : Bool) (doc_type format_type : String) : Nat :=
  if doc_type = "all" then 0
  else if doc_type = "whitepaper" then
    if format_type = "word" ∨ format_type = "both" then
      if docx_available then 0 else 1
    else 0
  else 0

/-- Default Markdown filename of `generate_technical_whitepaper_file`
(lines 864-866): an explicit `--output` filename is used verbatim,
otherwise `MIZ_OKI_3.0_Technical_Whitepaper_{timestamp}.md` with a
second-resolution timestamp. -/
def technical_md_filename (output_filename : Option String) (timestamp : String) : String :=
  match output_filename with
  | some name => name
  | none => "MIZ_OKI_3.0_Technical_Whitepaper_" ++ timestamp ++ ".md"

/-- API-reference filename of `generate_api_reference` (line 937):
`MIZ_OKI_API_Reference_{date}.md` where `date` is
`datetime.datetime.now().strftime('%Y%m%d')` — day resolution only. -/
def api_reference_filename (date : String) : String :=
  "MIZ_OKI_API_Reference_" ++ date ++ ".md"

/-- Deployment-guide filename of `generate_deployment_guide` (line 1099):
`MIZ_OKI_Deployment_Guide_{date}.md`, also day resolution only. -/
def deployment_guide_filename (date : String) : String :=
  "MIZ_OKI_Deployment_Guide_" ++ date ++ ".md"

/-!  Machinery for checking properties of the rendered text.  -/

/-- Split a character list at newline characters (the lines of a text; a
text with `n` newlines has `n+1` lines, trailing fragment included).
`acc` holds the characters of the current line, in reverse. -/
def splitLinesAux (acc : List Char) : List Char → List (List Char)
  | [] => [acc.reverse]
  | c :: rest =>
    if c = '\n' then acc.reverse :: splitLinesAux [] rest
    else splitLinesAux (c :: acc) rest

/-- The lines of a string, as character lists. -/
def lines_of (s : String) : List (List Char) := splitLinesAux [] s.data

/-- How many lines are exactly the given one. -/
def line_count (ls : List (List Char)) (h : List Char) : Nat :=
  (ls.filter (fun l => l == h)).length

/-- Index of the first line equal to the given one. -/
def first_line_idx (ls : List (List Char)) (h : List Char) : Nat :=
  ls.findIdx (fun l => l == h)

/-- Is a list of numbers strictly increasing? -/
def strictly_increasing : List Nat → Bool
  | [] => true
  | [_] => true
  | a :: b :: rest => Nat.blt a b && strictly_increasing (b :: rest)

/-- The fixed section headings of the business Markdown template, in
template order, each a full line of the output: the `##` section headings,
the contact heading and the trademark footer line.  The title block is
handled separately (its line depends on the record's title). -/
def fixed_headings : List String :=
  ["## EXECUTIVE SUMMARY",
   "## THE BUSINESS CHALLENGE",
   "## THE MIZ OKI 3.0™ SOLUTION",
   "## USE CASES & APPLICATIONS",
   "## COMPETITIVE ADVANTAGES",
   "## IMPLEMENTATION & ROI",
   "## TECHNICAL SPECIFICATIONS",
   "## NEXT STEPS",
   "### Contact Information:",
   "*© 2025 Media Intelligence Inc. All rights reserved. MIZ OKI 3.0™ is a trademark of Media Intelligence Inc.*"]

/-- The heading lines for one record: its title block line `# {title}`
followed by the fixed section headings. -/
def headings_for (c : WhitepaperConfig) : List String :=
  ("# " ++ c.title) :: fixed_headings

/-- Every heading occurs exactly once as a line of the text, and the
first-occurrence positions are strictly increasing (fixed order). -/
def headings_once_in_order (text : String) (hs : List String) : Bool :=
  let ls := lines_of text
  hs.all (fun h => line_count ls h.data == 1) &&
    strictly_increasing (hs.map (fun h => first_line_idx ls h.data))

/-- Does the text start with the given character list? -/
def leads_with : List Char → List Char → Bool
  | [], _ => true
  | _ :: _, [] => false
  | a :: as, b :: bs => a == b && leads_with as bs

/-- Does `needle` occur contiguously inside `hay`? -/
def contains_chars (hay needle : List Char) : Bool :=
  match hay with
  | [] => needle.isEmpty
  | _ :: rest => leads_with needle hay || contains_chars rest needle

/-- The last `n` characters of a list. -/
def last_chars (n : Nat) (l : List Char) : List Char := l.drop (l.length - n)

/-- The list without its last `n` characters. -/
def drop_last_chars (n : Nat) (l : List Char) : List Char := l.take (l.length - n)

/-- Shape `YYYYMMDD_HHMMSS` of the second-resolution
`strftime("%Y%m%d_%H%M%S")` stamps: 15 characters, digits around a single
underscore at position 8. -/
def ts_second_shape : List Char → Bool
  | [y1, y2, y3, y4, mo1, mo2, d1, d2, u, h1, h2, mi1, mi2, s1, s2] =>
    y1.isDigit && y2.isDigit && y3.isDigit && y4.isDigit &&
    mo1.isDigit && mo2.isDigit && d1.isDigit && d2.isDigit &&
    u == '_' &&
    h1.isDigit && h2.isDigit && mi1.isDigit && mi2.isDigit &&
    s1.isDigit && s2.isDigit
  | _ => false

/-- Shape `YYYYMMDD` of the day-resolution `strftime('%Y%m%d')` stamps:
exactly 8 digits. -/
def date_shape : List Char → Bool
  | [y1, y2, y3, y4, mo1, mo2, d1, d2] =>
    y1.isDigit && y2.isDigit && y3.isDigit && y4.isDigit &&
    mo1.isDigit && mo2.isDigit && d1.isDigit && d2.isDigit
  | _ => false

/-- The filename pattern asserted by the specification: extension `.md` or
`.docx`, and the base name ends in a second-resolution `YYYYMMDD_HHMMSS`
stamp. -/
def spec_stamped_name (fname : String) : Bool :=
  (last_chars 3 fname.data == ".md".data &&
    ts_second_shape (last_chars 15 (drop_last_chars 3 fname.data))) ||
  (last_chars 5 fname.data == ".docx".data &&
    ts_second_shape (last_chars 15 (drop_last_chars 5 fname.data)))

/-- A `.md` filename whose base name ends in a day-resolution `YYYYMMDD`
stamp. -/
def date_stamped_md_name (fname : String) : Bool :=
  last_chars 3 fname.data == ".md".data &&
    date_shape (last_chars 8 (drop_last_chars 3 fname.data))

/-- The complete runtime environment visible to
`generate_markdown_whitepaper`: beyond its config argument and the `%B %Y`
clock reading it reads at line 200, the process state also carries the
second-resolution timestamp, the `DOCX_AVAILABLE` flag and the workspace
path — none of which the Markdown renderer consults. -/
structure GenEnv where
  config : WhitepaperConfig
  current_date : String
  timestamp : String
  docx_available : Bool
  workspace : String

/-- `generate_markdown_whitepaper` as run inside a full environment: only
`config` and the clock's `current_date` reading are consulted. -/
def generate_markdown_in_env (e : GenEnv) : String :=
  generate_markdown_whitepaper e.config e.current_date

/-!  Helper lemmas.  -/

/-- The characters of a concatenation are the concatenated characters. -/
theorem string_data_append (a b : String) : (a ++ b).data = a.data ++ b.data := rfl

/-- `last_chars n` of a concatenation whose second part has length `n` is
that second part. -/
theorem last_chars_append (a b : List Char) (n : Nat) (h : b.length = n) :
    last_chars n (a ++ b) = b := by
  subst h
  unfold last_chars
  rw [List.length_append, Nat.add_sub_cancel]
  exact List.drop_left a b

/-- `drop_last_chars n` of a concatenation whose second part has length `n`
is the first part. -/
theorem drop_last_append (a b : List Char) (n : Nat) (h : b.length = n) :
    drop_last_chars n (a ++ b) = a := by
  subst h
  unfold drop_last_chars
  rw [List.length_append, Nat.add_sub_cancel]
  exact List.take_left a b

/-- Any name of the form `{base}{stamp}.md` with a well-shaped
second-resolution stamp satisfies the specification's filename pattern. -/
theorem spec_stamped_name_md (base ts : String)
    (h15 : ts.data.length = 15) (hts : ts_second_shape ts.data = true) :
    spec_stamped_name (base ++ ts ++ ".md") = true := by
  unfold spec_stamped_name
  rw [show (base ++ ts ++ ".md").data = (base.data ++ ts.data) ++ ".md".data from rfl]
  rw [last_chars_append (base.data ++ ts.data) ".md".data 3 rfl,
    drop_last_append (base.data ++ ts.data) ".md".data 3 rfl,
    last_chars_append base.data ts.data 15 h15]
  simp [hts]

/-- Any name of the form `{base}{stamp}.docx` with a well-shaped
second-resolution stamp satisfies the specification's filename pattern. -/
theorem spec_stamped_name_docx (base ts : String)
    (h15 : ts.data.length = 15) (hts : ts_second_shape ts.data = true) :
    spec_stamped_name (base ++ ts ++ ".docx") = true := by
  unfold spec_stamped_name
  rw [show (base ++ ts ++ ".docx").data = (base.data ++ ts.data) ++ ".docx".data from rfl]
  rw [last_chars_append (base.data ++ ts.data) ".docx".data 5 rfl,
    drop_last_append (base.data ++ ts.data) ".docx".data 5 rfl,
    last_chars_append base.data ts.data 15 h15]
  simp [hts]

/-- Any name of the form `{base}{date}.md` with a well-shaped day stamp is
a date-stamped Markdown name. -/
theorem date_stamped_md_name_append (base d : String)
    (h8 : d.data.length = 8) (hd : date_shape d.data = true) :
    date_stamped_md_name (base ++ d ++ ".md") = true := by
  unfold date_stamped_md_name
  rw [show (base ++ d ++ ".md").data = (base.data ++ d.data) ++ ".md".data from rfl]
  rw [last_chars_append (base.data ++ d.data) ".md".data 3 rfl,
    drop_last_append (base.data ++ d.data) ".md".data 3 rfl,
    last_chars_append base.data d.data 8 h8]
  simp [hd]

/-!  Claim theorems.  -/

/-- C1 (counterexample): invoking the business-whitepaper CLI with
`--format word` (and not `both`) while python-docx is unavailable produces
no file — the requested output kind could not be produced — yet the
process exit status is 0, not non-zero as the claim requires: `main`
(lines 901-931) never sets an exit status. -/
theorem c1_counterexample :
    (generate_whitepaper false "general_business" "word" "business"
        "20250712_153045" "July 2025").1 = [] ∧
    (generate_whitepaper false "general_business" "word" "business"
        "20250712_153045" "July 2025").2 = [docx_error_msg] ∧
    (business_main false "general_business" "word" "business"
        "20250712_153045" "July 2025").2 = 0 :=
  ⟨rfl, rfl, rfl⟩

/-- C1 (amended): the business-whitepaper CLI always exits with status 0,
even when a requested output kind cannot be produced (it only prints an
error message); a non-zero exit for an unavailable docx capability exists
only in the technical-doc CLI, and there exactly when `--type whitepaper`
is combined with `--format word` or `both` (its `--type all` branch merely
warns and exits 0). -/
theorem c1_amended_exit_status (docx_available : Bool)
    (industry format_type whitepaper_type timestamp current_date doc_type : String) :
    (business_main docx_available industry format_type whitepaper_type
        timestamp current_date).2 = 0 ∧
    (tech_main_exit docx_available doc_type format_type = 1 ↔
      doc_type = "whitepaper" ∧ (format_type = "word" ∨ format_type = "both") ∧
        docx_available = false) := by
  refine ⟨rfl, ?_⟩
  unfold tech_main_exit
  split_ifs with h1 h2 h3 h4 <;> simp_all

/-- C1 (amended, witness): concrete instance — with docx unavailable the
technical CLI invoked as `--type whitepaper --format word` exits 1. -/
theorem c1_amended_exit_status_witness :
    (business_main false "general_business" "word" "business"
        "20250712_153045" "July 2025").2 = 0 ∧
    (tech_main_exit false "whitepaper" "word" = 1 ↔
      "whitepaper" = "whitepaper" ∧ ("word" = "word" ∨ "word" = "both") ∧
        (false : Bool) = false) :=
  c1_amended_exit_status false "general_business" "word" "business"
    "20250712_153045" "July 2025" "whitepaper"

/-- C9: requesting the `premium` or `technical` whitepaper type together
with `format_type = "markdown"` produces no file, prints nothing and
raises nothing — those document types exist only in Word format
(lines 842-860 guard on `format_type in ["word", "both"]` only). -/
theorem c9_premium_technical_markdown_noop (docx_available : Bool)
    (industry timestamp current_date : String) :
    generate_whitepaper docx_available industry "markdown" "premium"
        timestamp current_date = ([], []) ∧
    generate_whitepaper docx_available industry "markdown" "technical"
        timestamp current_date = ([], []) := by
  constructor <;> (unfold generate_whitepaper; simp)

/-- C10: the Markdown rendering is a pure function of the config record and
the `%B %Y` clock reading: two runs whose environments agree on those two
components produce byte-identical strings, whatever the rest of the
environment (timestamp, docx availability, workspace) looks like. -/
theorem c10_markdown_depends_only_on_config_and_date (e1 e2 : GenEnv)
    (hc : e1.config = e2.config) (hd : e1.current_date = e2.current_date) :
    generate_markdown_in_env e1 = generate_markdown_in_env e2 := by
  unfold generate_markdown_in_env
  rw [hc, hd]

/-- C10 (witness): two concrete environments differing in timestamp, docx
availability and workspace but agreeing on config and date render
identically. -/
theorem c10_witness :
    generate_markdown_in_env
        ⟨healthcare_config, "July 2025", "20250712_153045", true, "."⟩ =
      generate_markdown_in_env
        ⟨healthcare_config, "July 2025", "20250713_000000", false, "/tmp/ws"⟩ :=
  c10_markdown_depends_only_on_config_and_date _ _ rfl rfl

/-- C2: for any selector string that is none of the three catalog keys,
the business generation path does not fail: the catalog lookup returns the
designated default (`general_business`) record, and the rendered Markdown
therefore opens with the default record's title, so the default record's
fields appear in the output. -/
theorem c2_unknown_selector_falls_back (k current_date : String)
    (h1 : k ≠ "healthcare") (h2 : k ≠ "media_buying")
    (h3 : k ≠ "general_business") :
    config_for k = general_business_config ∧
    ∃ rest, generate_markdown_whitepaper (config_for k) current_date =
      "# " ++ (general_business_config.title ++ rest) := by
  have hc : config_for k = general_business_config := by
    unfold config_for industry_configs
    simp [List.lookup, beq_eq_false_iff_ne.mpr h1, beq_eq_false_iff_ne.mpr h2,
      beq_eq_false_iff_ne.mpr h3]
  refine ⟨hc, ?_⟩
  rw [hc]
  exact ⟨md_front_tail general_business_config current_date ++
      (md_benefits general_business_config ++
        (md_middle general_business_config ++
          (md_year1_line general_business_config ++
            md_back general_business_config))),
    by simp only [generate_markdown_whitepaper, md_front, String.append_assoc]⟩

/-- C2 (witness): the unknown selector `"automotive"` falls back to the
default record and its title opens the rendered document. -/
theorem c2_witness :
    ("automotive" : String) ≠ "healthcare" ∧
    (config_for "automotive" = general_business_config ∧
      ∃ rest, generate_markdown_whitepaper (config_for "automotive") "July 2025" =
        "# " ++ (general_business_config.title ++ rest)) :=
  ⟨by decide,
   c2_unknown_selector_falls_back "automotive" "July 2025"
     (by decide) (by decide) (by decide)⟩

/-- C3: for every industry selector, requesting `format_type = "both"` for
the business whitepaper while python-docx is unavailable produces exactly
one file — the Markdown one — together with the printed (non-raising)
docx error message, and the CLI exits with status 0. -/
theorem c3_both_without_docx (industry timestamp current_date : String) :
    generate_whitepaper false industry "both" "business" timestamp current_date =
      ([⟨business_md_filename industry timestamp,
         .markdown (generate_markdown_whitepaper (config_for industry) current_date)⟩],
       [docx_error_msg]) ∧
    (business_main false industry "both" "business" timestamp current_date).2 = 0 := by
  refine ⟨?_, rfl⟩
  unfold generate_whitepaper
  simp

/-- C6: for any record whose `key_benefits` sequence is empty, the rendered
Markdown still contains the `### Key Benefits:` heading, immediately
followed by an empty list region (nothing but the blank line separating it
from the next heading): the section is not omitted and holds zero bullet
items. -/
theorem c6_empty_benefits_region (c : WhitepaperConfig) (current_date : String)
    (h : c.key_benefits = []) :
    ∃ pre post, generate_markdown_whitepaper c current_date =
      pre ++ ("### Key Benefits:\n\n\n### ROI Metrics:\n" ++ post) := by
  refine ⟨md_front c current_date,
    md_middle c ++ (md_year1_line c ++ md_back c), ?_⟩
  unfold generate_markdown_whitepaper md_benefits
  rw [h]
  rfl

/-- C6 (witness): the healthcare record with its benefits list emptied
renders the heading with an empty list region. -/
theorem c6_witness :
    ∃ pre post,
      generate_markdown_whitepaper
          { healthcare_config with key_benefits := [] } "July 2025" =
        pre ++ ("### Key Benefits:\n\n\n### ROI Metrics:\n" ++ post) :=
  c6_empty_benefits_region { healthcare_config with key_benefits := [] }
    "July 2025" rfl

/-- C7: for every record with a non-empty `roi_metrics` list, the `Year 1`
line of the ROI Calculation Example is exactly the label `Year 1: `, then
the characters of the first metric taken before the first `%` delimiter
(plain substring-before-delimiter, no numeric parsing), then `% ROI`. -/
theorem c7_year1_line_extraction (c : WhitepaperConfig) (current_date : String)
    (_h : c.roi_metrics ≠ []) :
    ∃ pre post, generate_markdown_whitepaper c current_date =
      pre ++ (("Year 1: " ++
        (String.mk ((c.roi_metrics.headD "").data.takeWhile (fun ch => ch ≠ '%')) ++
          "% ROI\n")) ++ post) := by
  refine ⟨md_front c current_date ++ (md_benefits c ++ md_middle c),
    md_back c, ?_⟩
  simp only [generate_markdown_whitepaper, md_year1_line, roi_year1_figure,
    String.append_assoc]

/-- C7 (witness): the healthcare record has a non-empty metrics list, and
its rendered document carries the extracted `Year 1` line. -/
theorem c7_witness :
    healthcare_config.roi_metrics ≠ [] ∧
    ∃ pre post, generate_markdown_whitepaper healthcare_config "July 2025" =
      pre ++ (("Year 1: " ++
        (String.mk ((healthcare_config.roi_metrics.headD "").data.takeWhile
            (fun ch => ch ≠ '%')) ++ "% ROI\n")) ++ post) :=
  ⟨by decide, c7_year1_line_extraction healthcare_config "July 2025" (by decide)⟩

/-- C4: for every record of the catalog, the rendered Markdown contains
each fixed section heading (title block line, the eight `##` section
headings, the contact heading and the trademark footer) exactly once as a
full line, and their first occurrences appear in the same fixed order for
every record.  The clock reading is fixed to a representative `%B %Y`
value, which only feeds the `**Published:**` line. -/
theorem c4_fixed_headings_once_in_order :
    industry_configs.all
      (fun p => headings_once_in_order
        (generate_markdown_whitepaper p.2 "July 2025") (headings_for p.2)) = true := by
  rfl

/-- C5: generating the business whitepaper for `industry = "healthcare"`
in Markdown format produces exactly the Markdown file, whose content
contains the literal string `1,187% 3-year ROI` and the comma-joined
audience list
`Chief Medical Officers, Healthcare CIOs, Hospital Administrators, Medical Directors`. -/
theorem c5_healthcare_text_content :
    (generate_whitepaper true "healthcare" "markdown" "business"
        "20250712_153045" "July 2025").1 =
      [⟨business_md_filename "healthcare" "20250712_153045",
        .markdown (generate_markdown_whitepaper (config_for "healthcare") "July 2025")⟩] ∧
    contains_chars
      (generate_markdown_whitepaper (config_for "healthcare") "July 2025").data
      "1,187% 3-year ROI".data = true ∧
    contains_chars
      (generate_markdown_whitepaper (config_for "healthcare") "July 2025").data
      "Chief Medical Officers, Healthcare CIOs, Hospital Administrators, Medical Directors".data
      = true :=
  ⟨rfl, rfl, rfl⟩

/-- C8 (counterexample): the API-reference file of the technical-doc
generator is named `MIZ_OKI_API_Reference_{YYYYMMDD}.md` — a day-resolution
stamp — so for the valid `strftime('%Y%m%d')` reading `20250712` the
produced filename does not end in a second-resolution `YYYYMMDD_HHMMSS`
stamp as the claim asserts for every output file. -/
theorem c8_counterexample :
    date_shape ("20250712" : String).data = true ∧
    spec_stamped_name (api_reference_filename "20250712") = false :=
  ⟨rfl, rfl⟩

/-- C8 (amended): the business generator's files and the technical
whitepaper files (when no `--output` override is given) are named with a
fixed prefix, the selector key or document type, and a second-resolution
`YYYYMMDD_HHMMSS` stamp, with `.md` for Markdown and `.docx` for Word; the
technical generator's API-reference and deployment-guide files instead
carry a day-resolution `YYYYMMDD` stamp, and an explicit `--output`
filename is used verbatim. -/
theorem c8_amended_filenames (industry ts d name : String)
    (h15 : ts.data.length = 15) (hts : ts_second_shape ts.data = true)
    (h8 : d.data.length = 8) (hd : date_shape d.data = true) :
    spec_stamped_name (business_md_filename industry ts) = true ∧
    spec_stamped_name (business_docx_filename industry ts) = true ∧
    spec_stamped_name (premium_docx_filename ts) = true ∧
    spec_stamped_name (technical_docx_filename ts) = true ∧
    spec_stamped_name (technical_md_filename none ts) = true ∧
    date_stamped_md_name (api_reference_filename d) = true ∧
    date_stamped_md_name (deployment_guide_filename d) = true ∧
    technical_md_filename (some name) ts = name :=
  ⟨spec_stamped_name_md ("MIZ_OKI_3.0_Whitepaper_" ++ industry ++ "_") ts h15 hts,
   spec_stamped_name_docx ("MIZ_OKI_3.0_Whitepaper_" ++ industry ++ "_") ts h15 hts,
   spec_stamped_name_docx "MIZ_OKI_3.0_Premium_Whitepaper_" ts h15 hts,
   spec_stamped_name_docx "MIZ_OKI_3.0_Technical_Whitepaper_" ts h15 hts,
   spec_stamped_name_md "MIZ_OKI_3.0_Technical_Whitepaper_" ts h15 hts,
   date_stamped_md_name_append "MIZ_OKI_API_Reference_" d h8 hd,
   date_stamped_md_name_append "MIZ_OKI_Deployment_Guide_" d h8 hd,
   rfl⟩

/-- C8 (amended, witness): concrete valid stamps instantiate the amended
naming characterization. -/
theorem c8_amended_witness :
    (("20250712_153045" : String).data.length = 15 ∧
     ts_second_shape ("20250712_153045" : String).data = true ∧
     ("20250712" : String).data.length = 8 ∧
     date_shape ("20250712" : String).data = true) ∧
    (spec_stamped_name (business_md_filename "healthcare" "20250712_153045") = true ∧
     spec_stamped_name (business_docx_filename "healthcare" "20250712_153045") = true ∧
     spec_stamped_name (premium_docx_filename "20250712_153045") = true ∧
     spec_stamped_name (technical_docx_filename "20250712_153045") = true ∧
     spec_stamped_name (technical_md_filename none "20250712_153045") = true ∧
     date_stamped_md_name (api_reference_filename "20250712") = true ∧
     date_stamped_md_name (deployment_guide_filename "20250712") = true ∧
     technical_md_filename (some "MIZ_OKI_custom_name.md") "20250712_153045" =
       "MIZ_OKI_custom_name.md") :=
  ⟨⟨rfl, rfl, rfl, rfl⟩,
   c8_amended_filenames "healthcare" "20250712_153045" "20250712"
     "MIZ_OKI_custom_name.md" rfl rfl rfl rfl⟩
